import Mathlib

/-!
Shallow embedding of the Kedarnath Travel booking backend (`src/app.py`).

The repository is a Flask CRUD application over a relational store.  We
model the booking store as a `List Booking` kept in insertion order, and
each HTTP handler as a pure function from its request data and the store
to a result value (tagged with the HTTP status it serializes to) and the
updated store.  JSON request bodies are modelled as records of `Option`
fields, so that `field not in data` in Python corresponds to `Option.isNone`.
Monetary amounts are natural numbers: every amount the code can create is
`unit_price * persons` with integer unit prices, and such values are exact
in the Python `float` column for all realistic sizes.  Wall-clock time,
the random digit suffix and the store-assigned internal id are passed as
explicit parameters to the functions that read them.
-/

namespace TravelBook

/-- A calendar date, as produced by `datetime.strptime(s, "%Y-%m-%d").date()`. -/
structure CalDate where
  year : Nat
  month : Nat
  day : Nat
deriving DecidableEq, Repr

/-- Lexicographic comparison on dates, mirroring SQL `date >= today`. -/
def CalDate.le (a b : CalDate) : Bool :=
  a.year < b.year ||
    (a.year == b.year && (a.month < b.month ||
      (a.month == b.month && a.day ≤ b.day)))

/-- Gregorian leap-year rule used by `datetime` for day-of-month validity. -/
def isLeap (y : Nat) : Bool :=
  (y % 4 == 0 && y % 100 != 0) || y % 400 == 0

/-- Number of days in a month, per the Gregorian calendar of `datetime`. -/
def daysInMonth (y m : Nat) : Nat :=
  if m == 2 then (if isLeap y then 29 else 28)
  else if m == 4 || m == 6 || m == 9 || m == 11 then 30
  else 31

/-- Value of a list of decimal digit characters. -/
def digitsToNat (cs : List Char) : Nat :=
  cs.foldl (fun acc c => acc * 10 + (c.toNat - 48)) 0

/-- Split a character list on `'-'`, keeping empty groups (like `str.split('-')`). -/
def splitDash : List Char → List (List Char)
  | [] => [[]]
  | c :: cs =>
    let r := splitDash cs
    if c == '-' then [] :: r
    else
      match r with
      | [] => [[c]]
      | g :: gs => (c :: g) :: gs

/-- Model of `datetime.strptime(s, "%Y-%m-%d").date()`: CPython compiles the format to
the regex `\d{4}` for `%Y`, one or two digits with value 1..12 for `%m` and
1..31 for `%d`, requires the whole string to match, and then `datetime`
rejects a day that does not exist in the month and a year below 1.
Returns `none` exactly when the Python call raises. -/
def parseDate (s : String) : Option CalDate :=
  match splitDash s.data with
  | [ys, ms, ds] =>
    if ys.length == 4 && ys.all Char.isDigit &&
       (ms.length == 1 || ms.length == 2) && ms.all Char.isDigit &&
       (ds.length == 1 || ds.length == 2) && ds.all Char.isDigit then
      let y := digitsToNat ys
      let m := digitsToNat ms
      let d := digitsToNat ds
      if 1 ≤ y && 1 ≤ m && m ≤ 12 && 1 ≤ d && d ≤ daysInMonth y m then
        some ⟨y, m, d⟩
      else none
    else none
  | _ => none

/-- One row of the `booking` table (`class Booking(db.Model)` in `app.py`). -/
structure Booking where
  id : Nat
  name : String
  email : String
  phone : String
  package : String
  persons : Nat
  date : CalDate
  status : String
  booking_id : String
  amount : Nat
  created_at : Nat
  special_requests : String
deriving DecidableEq, Repr

/-- The fixed price table inside `calculate_package_amount`. -/
def package_prices : List (String × Nat) :=
  [("Sacred Darshan", 19500), ("Divine Journey", 32500), ("Celestial Expedition", 58000)]

/-- Model of `calculate_package_amount(package, persons)`:
`package_prices.get(package, 19500) * persons`. -/
def calculate_package_amount (package : String) (persons : Nat) : Nat :=
  let base_price := (package_prices.lookup package).getD 19500
  base_price * persons

/-- Two zero-padded decimal digits, as `strftime` renders `%H` and `%M`. -/
def two_digit (n : Nat) : List Char :=
  [Nat.digitChar (n / 10), Nat.digitChar (n % 10)]

/-- Model of `generate_booking_id()`: `"KDR" + now.strftime("%H%M") + 8 random digits`.
The wall clock and the eight draws from `string.digits` are parameters:
`hour`/`minute` are the current time and `rand` the chosen digit values. -/
def generate_booking_id (hour minute : Nat) (rand : List Nat) : String :=
  ⟨'K' :: 'D' :: 'R' :: (two_digit hour ++ two_digit minute ++ rand.map Nat.digitChar)⟩

/-- The JSON body of a booking request: `request.json` as a record whose
fields are `none` when the key is absent from the dictionary.  `persons`
is a natural number (the well-typed reading of the integer field). -/
structure BookingInput where
  name : Option String
  email : Option String
  phone : Option String
  package : Option String
  date : Option String
  persons : Option Nat
  special_requests : Option String
deriving DecidableEq, Repr

/-- The check `field not in data` for each required field name of `create_booking`. -/
def fieldMissing (d : BookingInput) : String → Bool
  | "name" => d.name.isNone
  | "email" => d.email.isNone
  | "phone" => d.phone.isNone
  | "package" => d.package.isNone
  | "date" => d.date.isNone
  | "persons" => d.persons.isNone
  | _ => false

/-- The list `required_fields = ['name', 'email', 'phone', 'package', 'date', 'persons']`. -/
def required_fields : List String :=
  ["name", "email", "phone", "package", "date", "persons"]

/-- The `for field in required_fields` loop: the first missing field, if any. -/
def firstMissing (d : BookingInput) : Option String :=
  required_fields.find? (fieldMissing d)

/-- Result of the `create_booking` handler.  `missingField f` is the 400
response naming `f`; `parseError` is the generic 500 handler reached when
`datetime.strptime` raises on the date string; `created b` is the 201
response carrying the persisted record. -/
inductive CreateResult where
  | missingField (f : String)
  | parseError
  | created (b : Booking)
deriving DecidableEq, Repr

/-- HTTP status code of each `create_booking` outcome, as in the source:
400 for a missing field, 500 for the caught exception, 201 on success. -/
def CreateResult.httpStatus : CreateResult → Nat
  | .missingField _ => 400
  | .parseError => 500
  | .created _ => 201

/-- The persisted booking of a successful creation, if any. -/
def CreateResult.booking? : CreateResult → Option Booking
  | .created b => some b
  | _ => none

/-- Model of `create_booking()` (POST `/api/bookings`).  Checks the required fields
in order, parses the date, then builds the row with `status` left to its
column default `PENDING`, `booking_id = generate_booking_id()` (the wall
clock `hour`/`minute` and the eight random draws `rand` are explicit
parameters), the computed amount, and
`special_requests = data.get('special_requests', '')`; commits it and
returns 201.  `now` is the creation timestamp and `nextId` the
store-assigned primary key.  On any failure the session is rolled back,
so the store is returned unchanged. -/
def create_booking (hour minute : Nat) (rand : List Nat) (now nextId : Nat)
    (d : BookingInput) (bs : List Booking) : CreateResult × List Booking :=
  match firstMissing d with
  | some f => (.missingField f, bs)
  | none =>
    match parseDate (d.date.getD "") with
    | none => (.parseError, bs)
    | some dt =>
      let b : Booking :=
        { id := nextId
          name := d.name.getD ""
          email := d.email.getD ""
          phone := d.phone.getD ""
          package := d.package.getD ""
          persons := d.persons.getD 0
          date := dt
          status := "PENDING"
          booking_id := generate_booking_id hour minute rand
          amount := calculate_package_amount (d.package.getD "") (d.persons.getD 0)
          created_at := now
          special_requests := d.special_requests.getD "" }
      (.created b, bs ++ [b])

/-- Result of the `update_booking_status` handler: 404, 400 or 200. -/
inductive UpdateResult where
  | notFound
  | missingStatus
  | updated (b : Booking)
deriving DecidableEq, Repr

/-- HTTP status code of each `update_booking_status` outcome. -/
def UpdateResult.httpStatus : UpdateResult → Nat
  | .notFound => 404
  | .missingStatus => 400
  | .updated _ => 200

/-- Replace the first row whose primary key is `id` — the effect of
mutating the row returned by `Booking.query.get(id)` and committing.
(Primary keys are unique in the store, so at most one row matches.) -/
def replaceById (id : Nat) (b' : Booking) : List Booking → List Booking
  | [] => []
  | x :: xs => if x.id == id then b' :: xs else x :: replaceById id b' xs

/-- Model of `update_booking_status(id)` (PUT `/api/bookings/<id>`).  Looks the row
up by primary key (404 when absent), requires the `status` key in the body
(400 when absent), otherwise assigns the given string to the row's status,
commits, and returns the updated record with 200.  `status?` models
`'status' in data` presence. -/
def update_booking_status (id : Nat) (status? : Option String)
    (bs : List Booking) : UpdateResult × List Booking :=
  match bs.find? (fun b => b.id == id) with
  | none => (.notFound, bs)
  | some b =>
    match status? with
    | none => (.missingStatus, bs)
    | some s =>
      let b' := { b with status := s }
      (.updated b', replaceById id b' bs)

/-- Model of `get_bookings()` (GET `/api/bookings`):
`Booking.query.order_by(desc(Booking.created_at)).all()`.  `ORDER BY ...
DESC` sorts by `created_at` in non-increasing order; rows that compare
equal come back in an unspecified relative order, modelled here by a
stable sort of the insertion-ordered table. -/
def get_bookings (bs : List Booking) : List Booking :=
  bs.insertionSort (fun a b => b.created_at ≤ a.created_at)

/-- Python `f"{r:.2f}"` for the integer-valued revenue `r` (exact in the
double below `2^53`, so the two decimals are always zero). -/
def format_two_dec (r : Nat) : String :=
  toString r ++ ".00"

/-- Round `n / d` to the nearest integer, ties to even (`d ≥ 1`) — the
IEEE-754 round-to-nearest-even of an exact quotient. -/
def rneDiv (n d : Nat) : Nat :=
  let q := n / d
  let r := n % d
  if 2 * r < d then q
  else if d < 2 * r then q + 1
  else if q % 2 == 0 then q else q + 1

/-- Fuel-driven floor of the base-two logarithm. -/
def log2Aux : Nat → Nat → Nat
  | 0, _ => 0
  | fuel + 1, n => if 2 ≤ n then log2Aux fuel (n / 2) + 1 else 0

/-- Floor of the base-two logarithm of `n` (0 at 0 and 1). -/
def natLog2 (n : Nat) : Nat := log2Aux n n

/-- Floor of the base-two logarithm of the positive rational `p / q`
(`p, q ≥ 1`), as a signed integer. -/
def ratLog2 (p q : Nat) : Int :=
  let a := natLog2 p
  let b := natLog2 q
  if b ≤ a then
    if q * 2 ^ (a - b) ≤ p then ((a - b : Nat) : Int) else ((a - b : Nat) : Int) - 1
  else
    if q ≤ p * 2 ^ (b - a) then -((b - a : Nat) : Int) else -((b - a : Nat) : Int) - 1

/-- The IEEE-754 double nearest to `p / q` (`p, q ≥ 1`): the quotient
rounded to 53 significant bits, to nearest with ties to even, returned as
a dyadic pair `(m, e)` with value `m * 2^e`.  The exponent is unbounded
(no overflow or subnormals), faithful to binary64 for every magnitude a
revenue can reach. -/
def nearestDouble (p q : Nat) : Nat × Int :=
  let E := ratLog2 p q
  let s : Int := 52 - E
  let m :=
    if 0 ≤ s then rneDiv (p * 2 ^ s.toNat) q
    else rneDiv p (q * 2 ^ (-s).toNat)
  (m, E - 52)

/-- Python `f"{r/100000:.1f}"` for the integer-valued revenue `r`: the
true division `r / 100000` is rounded to the nearest double, and CPython's
dtoa then renders that double's exact binary value to one decimal digit,
to nearest with ties to even.  Both rounding steps are reproduced exactly,
so the double's representation error decides near-tie digits just as in
the program (e.g. 4.35 formats as "4.3"). -/
def format_lakh (r : Nat) : String :=
  if r = 0 then "0.0"
  else
    let (m, e) := nearestDouble r 100000
    let t := if 0 ≤ e then 10 * m * 2 ^ e.toNat else rneDiv (10 * m) (2 ^ (-e).toNat)
    toString (t / 10) ++ "." ++ toString (t % 10)

/-- The stats object returned by GET `/api/stats`. -/
structure StatsResult where
  total_bookings : Nat
  confirmed_bookings : Nat
  pending_bookings : Nat
  upcoming_bookings : Nat
  total_revenue : Nat
  revenue_formatted : String
deriving DecidableEq, Repr

/-- Model of `get_stats()` (GET `/api/stats`).  Counts all rows, the CONFIRMED rows,
the PENDING rows, and the rows with `date >= today` and `status !=
'CANCELED'`; sums `amount` over CONFIRMED rows (the SQL `SUM` is `NULL`
coalesced to 0 by `or 0` when no row matches, which the list sum already
gives); and formats the revenue as `₹{r/100000:.1f}L` when
`r >= 100000`, else `₹{r:.2f}`.  `today` is `datetime.now().date()`. -/
def get_stats (today : CalDate) (bs : List Booking) : StatsResult :=
  let total_revenue :=
    ((bs.filter (fun b => b.status == "CONFIRMED")).map Booking.amount).sum
  { total_bookings := bs.length
    confirmed_bookings := (bs.filter (fun b => b.status == "CONFIRMED")).length
    pending_bookings := (bs.filter (fun b => b.status == "PENDING")).length
    upcoming_bookings :=
      (bs.filter (fun b => CalDate.le today b.date && b.status != "CANCELED")).length
    total_revenue := total_revenue
    revenue_formatted :=
      if 100000 ≤ total_revenue then "₹" ++ format_lakh total_revenue ++ "L"
      else "₹" ++ format_two_dec total_revenue }

/-! Theorems settling the claims about the embedded operations. -/

/-- C2: for every package name and positive number of persons,
`calculate_package_amount` returns the table unit price
({"Sacred Darshan": 19500, "Divine Journey": 32500,
"Celestial Expedition": 58000}) times `persons`, and for every name not in
the table it returns `19500 * persons` — the lenient default, never an
error. -/
theorem calculate_package_amount_spec (P : String) (N : Nat) (hN : 0 < N)
    (hP : P ≠ "Sacred Darshan" ∧ P ≠ "Divine Journey" ∧ P ≠ "Celestial Expedition") :
    calculate_package_amount "Sacred Darshan" N = 19500 * N ∧
    calculate_package_amount "Divine Journey" N = 32500 * N ∧
    calculate_package_amount "Celestial Expedition" N = 58000 * N ∧
    calculate_package_amount P N = 19500 * N := by
  refine ⟨rfl, rfl, rfl, ?_⟩
  have h1 : (P == "Sacred Darshan") = false := beq_eq_false_iff_ne.mpr hP.1
  have h2 : (P == "Divine Journey") = false := beq_eq_false_iff_ne.mpr hP.2.1
  have h3 : (P == "Celestial Expedition") = false := beq_eq_false_iff_ne.mpr hP.2.2
  simp [calculate_package_amount, package_prices, List.lookup, h1, h2, h3]

/-- Witness for C2 at the unrecognized package name "Alpine Trek", 3 persons. -/
theorem calculate_package_amount_spec_witness :
    calculate_package_amount "Alpine Trek" 3 = 19500 * 3 :=
  (calculate_package_amount_spec "Alpine Trek" 3 (by decide)
    ⟨by decide, by decide, by decide⟩).2.2.2

/-- The function `Nat.digitChar` sends a value below ten to a decimal digit character. -/
theorem digitChar_isDigit {n : Nat} (h : n < 10) : (Nat.digitChar n).isDigit = true := by
  interval_cases n <;> decide

/-- C9: `generate_booking_id` returns a 15-character string: the fixed
three characters `K`, `D`, `R`, then the hour and minute as four
zero-padded digits, then the eight random digits; every character after
the first three is a decimal digit. -/
theorem generate_booking_id_spec (hour minute : Nat) (rand : List Nat)
    (hh : hour < 24) (hm : minute < 60) (hlen : rand.length = 8)
    (hrand : ∀ x ∈ rand, x < 10) :
    (generate_booking_id hour minute rand).length = 15 ∧
    (generate_booking_id hour minute rand).data.take 3 = ['K', 'D', 'R'] ∧
    (generate_booking_id hour minute rand).data.drop 3 =
      two_digit hour ++ two_digit minute ++ rand.map Nat.digitChar ∧
    ∀ c ∈ (generate_booking_id hour minute rand).data.drop 3, c.isDigit = true := by
  refine ⟨?_, rfl, rfl, ?_⟩
  · simp [generate_booking_id, String.length, two_digit, hlen]
  · intro c hc
    have hc' : c ∈ two_digit hour ++ two_digit minute ++ rand.map Nat.digitChar := hc
    simp only [two_digit, List.mem_append, List.mem_cons, List.mem_map,
      List.not_mem_nil, or_false] at hc'
    rcases hc' with ((h1 | h1) | (h1 | h1)) | ⟨x, hx, h1⟩ <;> subst h1
    · exact digitChar_isDigit (by omega)
    · exact digitChar_isDigit (by omega)
    · exact digitChar_isDigit (by omega)
    · exact digitChar_isDigit (by omega)
    · exact digitChar_isDigit (hrand x hx)

/-- Witness for C9 at 07:05 with random digits 1–8. -/
theorem generate_booking_id_spec_witness :
    (generate_booking_id 7 5 [1, 2, 3, 4, 5, 6, 7, 8]).length = 15 :=
  (generate_booking_id_spec 7 5 [1, 2, 3, 4, 5, 6, 7, 8] (by decide) (by decide)
    (by decide) (by decide)).1

/-- An element found by `find?` satisfies the predicate, belongs to the
list, and every element of the failing head segment fails the predicate. -/
theorem find?_first {α : Type} (p : α → Bool) :
    ∀ (l : List α) (a : α), l.find? p = some a →
      p a = true ∧ a ∈ l ∧ ∀ x ∈ l.takeWhile (fun y => !p y), p x = false := by
  intro l
  induction l with
  | nil => intro a h; simp [List.find?] at h
  | cons x xs ih =>
    intro a h
    by_cases hx : p x = true
    · rw [List.find?_cons_of_pos _ hx] at h
      injection h with h
      subst h
      refine ⟨hx, List.mem_cons_self _ _, ?_⟩
      intro z hz
      simp [List.takeWhile_cons, hx] at hz
    · rw [List.find?_cons_of_neg _ hx] at h
      obtain ⟨h1, h2, h3⟩ := ih a h
      refine ⟨h1, List.mem_cons_of_mem _ h2, ?_⟩
      intro z hz
      rw [List.takeWhile_cons] at hz
      simp only [Bool.not_eq_true] at hx
      rw [hx] at hz
      simp only [Bool.not_false, if_true, List.mem_cons] at hz
      rcases hz with rfl | hz
      · exact hx
      · exact h3 z hz

/-- C4: a create request missing at least one required field is answered
with a 400 response naming the first missing field in the fixed order
name, email, phone, package, date, persons, and the store is unchanged. -/
theorem create_booking_missing_field (hour minute : Nat) (rand : List Nat)
    (now nextId : Nat) (d : BookingInput) (bs : List Booking) (f : String)
    (hf : firstMissing d = some f) :
    create_booking hour minute rand now nextId d bs = (.missingField f, bs) ∧
    (CreateResult.missingField f).httpStatus = 400 ∧
    f ∈ required_fields ∧ fieldMissing d f = true ∧
    ∀ g ∈ required_fields.takeWhile (fun g => !fieldMissing d g),
      fieldMissing d g = false := by
  obtain ⟨h1, h2, h3⟩ := find?_first (fieldMissing d) required_fields f hf
  refine ⟨?_, rfl, h2, h1, h3⟩
  simp [create_booking, hf]

/-- Witness for C4: a request that omits `email` (and only it among the
first fields) is refused naming `email`, with no write. -/
theorem create_booking_missing_field_witness :
    create_booking 7 5 [1, 2, 3, 4, 5, 6, 7, 8] 0 1
        ⟨some "Ravi", none, some "9876543210", some "Sacred Darshan",
          some "2026-05-10", some 1, none⟩ [] =
      (.missingField "email", []) :=
  (create_booking_missing_field 7 5 [1, 2, 3, 4, 5, 6, 7, 8] 0 1
    ⟨some "Ravi", none, some "9876543210", some "Sacred Darshan",
      some "2026-05-10", some 1, none⟩ [] "email" (by decide)).1

/-- Evaluation of `create_booking` on a request with every required field
present and a date string that parses: the full success path. -/
theorem create_booking_eval (hour minute : Nat) (rand : List Nat) (now nextId : Nat)
    (name email phone package dateS : String) (persons : Nat) (sr : Option String)
    (bs : List Booking) (dt : CalDate) (hdate : parseDate dateS = some dt) :
    create_booking hour minute rand now nextId
        ⟨some name, some email, some phone, some package, some dateS, some persons, sr⟩ bs =
      (.created ⟨nextId, name, email, phone, package, persons, dt, "PENDING",
          generate_booking_id hour minute rand,
          calculate_package_amount package persons, now, sr.getD ""⟩,
        bs ++ [⟨nextId, name, email, phone, package, persons, dt, "PENDING",
          generate_booking_id hour minute rand,
          calculate_package_amount package persons, now, sr.getD ""⟩]) := by
  simp [create_booking, firstMissing, required_fields, fieldMissing, hdate]

/-- Replacement by `replaceById` with a row of equal amount, at a key located by `find?`,
preserves the positional list of amounts. -/
theorem map_amount_replaceById (id : Nat) (b b' : Booking)
    (hamt : b'.amount = b.amount) :
    ∀ bs : List Booking, bs.find? (fun x => x.id == id) = some b →
      (replaceById id b' bs).map Booking.amount = bs.map Booking.amount := by
  intro bs
  induction bs with
  | nil => intro h; simp [List.find?] at h
  | cons x xs ih =>
    intro h
    by_cases hx : (x.id == id) = true
    · rw [@List.find?_cons_of_pos Booking (fun y => y.id == id) x xs hx] at h
      injection h with h
      subst h
      simp [replaceById, hx, hamt]
    · rw [@List.find?_cons_of_neg Booking (fun y => y.id == id) x xs hx] at h
      simp [replaceById, hx, ih h]

/-- The status-update handler never touches the amount column: the list of
amounts in store order is unchanged by every call. -/
theorem map_amount_update (id : Nat) (st : Option String) (bs : List Booking) :
    ((update_booking_status id st bs).2).map Booking.amount = bs.map Booking.amount := by
  cases hfind : bs.find? (fun b => b.id == id) with
  | none => simp [update_booking_status, hfind]
  | some b =>
    cases st with
    | none => simp [update_booking_status, hfind]
    | some s =>
      simp only [update_booking_status, hfind]
      exact map_amount_replaceById id b { b with status := s } rfl bs hfind

/-- C1: a create request with all required fields present and a parseable
date succeeds with 201; the persisted booking has status PENDING, amount
equal to `calculate_package_amount package persons` computed at creation,
and the freshly generated booking id; no later operation recomputes the
amount (the only mutation path, `update_booking_status`, preserves every
amount); and the cited instance — package "Divine Journey", 2 persons —
yields amount 65000. -/
theorem create_booking_success (hour minute : Nat) (rand : List Nat)
    (now nextId : Nat) (name email phone package dateS : String) (persons : Nat)
    (sr : Option String) (bs : List Booking) (dt : CalDate) (b : Booking)
    (hdate : parseDate dateS = some dt)
    (hb : b = ⟨nextId, name, email, phone, package, persons, dt, "PENDING",
        generate_booking_id hour minute rand,
        calculate_package_amount package persons, now, sr.getD ""⟩) :
    create_booking hour minute rand now nextId
        ⟨some name, some email, some phone, some package, some dateS, some persons, sr⟩ bs =
      (.created b, bs ++ [b]) ∧
    (CreateResult.created b).httpStatus = 201 ∧
    b.status = "PENDING" ∧
    b.amount = calculate_package_amount package persons ∧
    b.booking_id = generate_booking_id hour minute rand ∧
    (∀ id st bs', ((update_booking_status id st bs').2).map Booking.amount =
      bs'.map Booking.amount) ∧
    calculate_package_amount "Divine Journey" 2 = 65000 := by
  subst hb
  exact ⟨create_booking_eval hour minute rand now nextId name email phone package
    dateS persons sr bs dt hdate, rfl, rfl, rfl, rfl, map_amount_update, rfl⟩

/-- Witness for C1: the spec's example booking (package "Divine Journey",
2 persons, date "2026-05-10") is created with 201 and amount 65000. -/
theorem create_booking_success_witness :
    (create_booking 7 5 [1, 2, 3, 4, 5, 6, 7, 8] 0 1
        ⟨some "Ravi", some "ravi@example.com", some "9876543210",
          some "Divine Journey", some "2026-05-10", some 2, none⟩ []).1.httpStatus = 201 ∧
    calculate_package_amount "Divine Journey" 2 = 65000 := by
  have h := create_booking_success 7 5 [1, 2, 3, 4, 5, 6, 7, 8] 0 1 "Ravi"
    "ravi@example.com" "9876543210" "Divine Journey" "2026-05-10" 2 none []
    ⟨2026, 5, 10⟩ _ (by decide) rfl
  exact ⟨by rw [h.1]; exact h.2.1, h.2.2.2.2.2.2⟩

/-- C10: when the optional `special_requests` key is absent from a create
request, the persisted (and returned) booking carries the empty string in
that column, not a null. -/
theorem create_booking_special_requests_default (hour minute : Nat) (rand : List Nat)
    (now nextId : Nat) (name email phone package dateS : String) (persons : Nat)
    (bs : List Booking) (dt : CalDate) (b : Booking)
    (hdate : parseDate dateS = some dt)
    (hb : (create_booking hour minute rand now nextId
        ⟨some name, some email, some phone, some package, some dateS, some persons,
          none⟩ bs).1.booking? = some b) :
    b.special_requests = "" ∧
    (create_booking hour minute rand now nextId
        ⟨some name, some email, some phone, some package, some dateS, some persons,
          none⟩ bs).2 = bs ++ [b] := by
  rw [create_booking_eval hour minute rand now nextId name email phone package
    dateS persons none bs dt hdate] at hb ⊢
  simp only [CreateResult.booking?, Option.some.injEq] at hb
  subst hb
  exact ⟨rfl, rfl⟩

/-- Witness for C10: a concrete request without `special_requests` is
persisted with `special_requests = ""`. -/
theorem create_booking_special_requests_default_witness :
    Booking.special_requests ⟨1, "Asha", "asha@example.com", "9000000000",
        "Sacred Darshan", 1, ⟨2026, 5, 10⟩, "PENDING",
        generate_booking_id 7 5 [1, 2, 3, 4, 5, 6, 7, 8],
        calculate_package_amount "Sacred Darshan" 1, 0, ""⟩ = "" :=
  (create_booking_special_requests_default 7 5 [1, 2, 3, 4, 5, 6, 7, 8] 0 1
    "Asha" "asha@example.com" "9000000000" "Sacred Darshan" "2026-05-10" 1 []
    ⟨2026, 5, 10⟩ _ (by decide) rfl).1

/-- A row located by `find?` is a member of the store after `replaceById`
writes its replacement. -/
theorem mem_replaceById (id : Nat) (b b' : Booking) :
    ∀ bs : List Booking, bs.find? (fun x => x.id == id) = some b →
      b' ∈ replaceById id b' bs := by
  intro bs
  induction bs with
  | nil => intro h; simp [List.find?] at h
  | cons x xs ih =>
    intro h
    by_cases hx : (x.id == id) = true
    · simp [replaceById, hx]
    · rw [@List.find?_cons_of_neg Booking (fun y => y.id == id) x xs hx] at h
      simp only [replaceById, if_neg hx, List.mem_cons]
      exact Or.inr (ih h)

/-- C5: updating a nonexistent id answers 404 and changes nothing; a
request without the `status` key answers 400 and changes nothing; otherwise
any string whatsoever is accepted as the new status, persisted, and the
updated record is returned with 200. -/
theorem update_booking_status_spec (id : Nat) (status? : Option String)
    (bs : List Booking) :
    (bs.find? (fun b => b.id == id) = none →
      update_booking_status id status? bs = (.notFound, bs) ∧
      UpdateResult.notFound.httpStatus = 404) ∧
    (∀ b, bs.find? (fun b => b.id == id) = some b → status? = none →
      update_booking_status id status? bs = (.missingStatus, bs) ∧
      UpdateResult.missingStatus.httpStatus = 400) ∧
    (∀ b s, bs.find? (fun b => b.id == id) = some b → status? = some s →
      update_booking_status id status? bs =
        (.updated { b with status := s }, replaceById id { b with status := s } bs) ∧
      Booking.status { b with status := s } = s ∧
      { b with status := s } ∈ (update_booking_status id status? bs).2 ∧
      (UpdateResult.updated { b with status := s }).httpStatus = 200) := by
  refine ⟨?_, ?_, ?_⟩
  · intro h
    exact ⟨by simp [update_booking_status, h], rfl⟩
  · intro b hb hs
    subst hs
    exact ⟨by simp [update_booking_status, hb], rfl⟩
  · intro b s hb hs
    subst hs
    have he : update_booking_status id (some s) bs =
        (.updated { b with status := s }, replaceById id { b with status := s } bs) := by
      simp [update_booking_status, hb]
    refine ⟨he, rfl, ?_, rfl⟩
    rw [he]
    exact mem_replaceById id b _ bs hb

/-- A store row for the C5 witness. -/
def bkC5 : Booking := ⟨1, "Meera", "meera@example.com", "9111111111",
  "Divine Journey", 2, ⟨2026, 5, 10⟩, "PENDING", "KDR070512345678", 65000, 0, ""⟩

/-- Witness for C5: the out-of-enum string "ON HOLD" is accepted and
persisted as the status of the stored booking. -/
theorem update_booking_status_spec_witness :
    Booking.status { bkC5 with status := "ON HOLD" } = "ON HOLD" ∧
    { bkC5 with status := "ON HOLD" } ∈
      (update_booking_status 1 (some "ON HOLD") [bkC5]).2 :=
  let h := (update_booking_status_spec 1 (some "ON HOLD") [bkC5]).2.2 bkC5 "ON HOLD"
    (by decide) rfl
  ⟨h.2.1, h.2.2.1⟩

/-- A confirmed booking with amount 250000, for the C3 revenue example. -/
def bk250 : Booking := ⟨1, "Kiran", "kiran@example.com", "9222222222",
  "Celestial Expedition", 5, ⟨2026, 6, 1⟩, "CONFIRMED", "KDR110022223333",
  250000, 0, ""⟩

/-- C3: the stats endpoint reports the total row count, the CONFIRMED
count, the PENDING count, the count of rows with date ≥ today and status ≠
CANCELED, the revenue as the sum of CONFIRMED amounts (0 when none), and
the formatted string `₹{r/100000:.1f}L` when the revenue reaches 100000
and `₹{r:.2f}` otherwise; zero confirmed bookings give revenue 0 and
"₹0.00", and revenue 250000 gives "₹2.5L". -/
theorem get_stats_spec (today : CalDate) (bs : List Booking) :
    get_stats today bs =
      { total_bookings := bs.length
        confirmed_bookings := bs.countP (fun b => b.status == "CONFIRMED")
        pending_bookings := bs.countP (fun b => b.status == "PENDING")
        upcoming_bookings :=
          bs.countP (fun b => CalDate.le today b.date && b.status != "CANCELED")
        total_revenue :=
          ((bs.filter (fun b => b.status == "CONFIRMED")).map Booking.amount).sum
        revenue_formatted :=
          if 100000 ≤
              ((bs.filter (fun b => b.status == "CONFIRMED")).map Booking.amount).sum then
            "₹" ++ format_lakh
              (((bs.filter (fun b => b.status == "CONFIRMED")).map Booking.amount).sum) ++ "L"
          else
            "₹" ++ format_two_dec
              (((bs.filter (fun b => b.status == "CONFIRMED")).map Booking.amount).sum) } ∧
    (bs.countP (fun b => b.status == "CONFIRMED") = 0 →
      (get_stats today bs).total_revenue = 0 ∧
      (get_stats today bs).revenue_formatted = "₹0.00") ∧
    (get_stats ⟨2026, 1, 1⟩ [bk250]).total_revenue = 250000 ∧
    (get_stats ⟨2026, 1, 1⟩ [bk250]).revenue_formatted = "₹2.5L" := by
  refine ⟨?_, ?_, ?_, ?_⟩
  · simp [get_stats, List.countP_eq_length_filter]
  · intro h
    have hf : bs.filter (fun b => b.status == "CONFIRMED") = [] := by
      rw [List.countP_eq_length_filter] at h
      exact List.length_eq_zero.mp h
    constructor
    · simp [get_stats, hf]
    · simp only [get_stats, hf]
      decide
  · decide
  · decide

/-- Witness for C3: on an empty store the revenue is 0, formatted "₹0.00". -/
theorem get_stats_spec_witness :
    (get_stats ⟨2026, 1, 1⟩ []).total_revenue = 0 ∧
    (get_stats ⟨2026, 1, 1⟩ []).revenue_formatted = "₹0.00" :=
  (get_stats_spec ⟨2026, 1, 1⟩ []).2.1 (by decide)

/-- Input for the C6 counterexample: every required key present, but name,
email and phone all equal to the empty string. -/
def inputC6 : BookingInput :=
  ⟨some "", some "", some "", some "Sacred Darshan", some "2026-05-10", some 1, none⟩

/-- C6 counterexample: `create_booking` accepts an input whose name, email
and phone are present but empty — it answers 201 and persists a row whose
name, email and phone are all "", refuting the claim that such inputs are
rejected. -/
theorem create_booking_accepts_empty_strings :
    (create_booking 7 5 [1, 2, 3, 4, 5, 6, 7, 8] 0 1 inputC6 []).1.httpStatus = 201 ∧
    ((create_booking 7 5 [1, 2, 3, 4, 5, 6, 7, 8] 0 1 inputC6 []).2).length = 1 ∧
    ∀ b ∈ (create_booking 7 5 [1, 2, 3, 4, 5, 6, 7, 8] 0 1 inputC6 []).2,
      b.name = "" ∧ b.email = "" ∧ b.phone = "" := by decide

/-- C6 amended: `create_booking` checks only that the required keys are
present; an input whose name, email or phone is the empty string is
accepted with 201 and persisted with those empty values — non-emptiness is
not enforced. -/
theorem create_booking_no_emptiness_check (hour minute : Nat) (rand : List Nat)
    (now nextId : Nat) (name email phone package dateS : String) (persons : Nat)
    (sr : Option String) (bs : List Booking) (dt : CalDate)
    (hdate : parseDate dateS = some dt)
    (hempty : name = "" ∨ email = "" ∨ phone = "") :
    (create_booking hour minute rand now nextId
        ⟨some name, some email, some phone, some package, some dateS, some persons,
          sr⟩ bs).1.httpStatus = 201 ∧
    (create_booking hour minute rand now nextId
        ⟨some name, some email, some phone, some package, some dateS, some persons,
          sr⟩ bs).2 =
      bs ++ [⟨nextId, name, email, phone, package, persons, dt, "PENDING",
        generate_booking_id hour minute rand,
        calculate_package_amount package persons, now, sr.getD ""⟩] := by
  have he := create_booking_eval hour minute rand now nextId name email phone package
    dateS persons sr bs dt hdate
  rw [he]
  exact ⟨rfl, rfl⟩

/-- Witness for the amended C6 at an input whose name is empty. -/
theorem create_booking_no_emptiness_check_witness :
    (create_booking 7 5 [1, 2, 3, 4, 5, 6, 7, 8] 0 1
        ⟨some "", some "a@example.com", some "9876543210", some "Sacred Darshan",
          some "2026-05-10", some 1, none⟩ []).1.httpStatus = 201 :=
  (create_booking_no_emptiness_check 7 5 [1, 2, 3, 4, 5, 6, 7, 8] 0 1 ""
    "a@example.com" "9876543210" "Sacred Darshan" "2026-05-10" 1 none []
    ⟨2026, 5, 10⟩ (by decide) (Or.inl rfl)).1

/-- Input for the C7 counterexample: all required fields present, date not
in YYYY-MM-DD form. -/
def inputC7 : BookingInput :=
  ⟨some "Ravi", some "ravi@example.com", some "9876543210", some "Sacred Darshan",
    some "2026/05/10", some 1, none⟩

/-- C7 counterexample: a malformed date string is answered by the generic
exception handler with HTTP 500 — not a 4xx client error — although no
booking is persisted. -/
theorem create_booking_bad_date_is_500 :
    (create_booking 7 5 [1, 2, 3, 4, 5, 6, 7, 8] 0 1 inputC7 []).1 = .parseError ∧
    (create_booking 7 5 [1, 2, 3, 4, 5, 6, 7, 8] 0 1 inputC7 []).1.httpStatus = 500 ∧
    ¬(400 ≤ (create_booking 7 5 [1, 2, 3, 4, 5, 6, 7, 8] 0 1 inputC7 []).1.httpStatus ∧
      (create_booking 7 5 [1, 2, 3, 4, 5, 6, 7, 8] 0 1 inputC7 []).1.httpStatus < 500) ∧
    (create_booking 7 5 [1, 2, 3, 4, 5, 6, 7, 8] 0 1 inputC7 []).2 = [] := by decide

/-- C7 amended: a create request whose date is present but not parseable
as YYYY-MM-DD fails through the caught-exception path with HTTP 500, and
no booking is persisted (the store is unchanged). -/
theorem create_booking_parse_failure (hour minute : Nat) (rand : List Nat)
    (now nextId : Nat) (d : BookingInput) (bs : List Booking)
    (hall : firstMissing d = none)
    (hdate : parseDate (d.date.getD "") = none) :
    create_booking hour minute rand now nextId d bs = (.parseError, bs) ∧
    CreateResult.parseError.httpStatus = 500 := by
  refine ⟨?_, rfl⟩
  simp [create_booking, hall, hdate]

/-- Witness for the amended C7 at the slash-separated date. -/
theorem create_booking_parse_failure_witness :
    create_booking 7 5 [1, 2, 3, 4, 5, 6, 7, 8] 0 1 inputC7 [] = (.parseError, []) :=
  (create_booking_parse_failure 7 5 [1, 2, 3, 4, 5, 6, 7, 8] 0 1 inputC7 []
    (by decide) (by decide)).1

/-- Two bookings sharing a `created_at` timestamp, for the C8
counterexample. -/
def bkTieA : Booking := ⟨1, "A", "a@example.com", "9100000000", "Sacred Darshan", 1,
  ⟨2026, 5, 10⟩, "PENDING", "KDR000100000001", 19500, 5, ""⟩

/-- Second booking with the same `created_at` as `bkTieA`. -/
def bkTieB : Booking := ⟨2, "B", "b@example.com", "9200000000", "Sacred Darshan", 1,
  ⟨2026, 5, 11⟩, "PENDING", "KDR000100000002", 19500, 5, ""⟩

/-- C8 counterexample: on a store holding two rows with equal `created_at`
the listing is not strictly descending in `created_at`, refuting the
universally quantified strictness. -/
theorem get_bookings_not_strictly_descending :
    ¬ List.Pairwise (fun a b => b.created_at < a.created_at)
        (get_bookings [bkTieA, bkTieB]) := by
  intro h
  have he : get_bookings [bkTieA, bkTieB] = [bkTieA, bkTieB] := by decide
  rw [he] at h
  have hlt := (List.pairwise_cons.mp h).1 bkTieB (List.mem_cons_self _ _)
  simp [bkTieA, bkTieB] at hlt

/-- C8 amended: the listing returns exactly the stored records (a
permutation of the store) ordered by `created_at` in non-increasing order;
whenever all `created_at` values are distinct, the order is strictly
descending. -/
theorem get_bookings_sorted (bs : List Booking) :
    (get_bookings bs).Perm bs ∧
    List.Pairwise (fun a b => b.created_at ≤ a.created_at) (get_bookings bs) ∧
    (List.Pairwise (fun a b => a.created_at ≠ b.created_at) bs →
      List.Pairwise (fun a b => b.created_at < a.created_at) (get_bookings bs)) := by
  haveI : IsTotal Booking (fun a b => b.created_at ≤ a.created_at) :=
    ⟨fun a b => Nat.le_total b.created_at a.created_at⟩
  haveI : IsTrans Booking (fun a b => b.created_at ≤ a.created_at) :=
    ⟨fun _ _ _ h1 h2 => Nat.le_trans h2 h1⟩
  have hperm : (get_bookings bs).Perm bs := List.perm_insertionSort _ bs
  have hs : List.Pairwise (fun a b => b.created_at ≤ a.created_at) (get_bookings bs) :=
    List.sorted_insertionSort _ bs
  refine ⟨hperm, hs, ?_⟩
  intro hdist
  have hdist' : List.Pairwise (fun a b => a.created_at ≠ b.created_at) (get_bookings bs) :=
    (List.Perm.pairwise_iff (fun h => h.symm) hperm).mpr hdist
  exact (hs.and hdist').imp fun h => lt_of_le_of_ne h.1 (Ne.symm h.2)

/-- Store rows with distinct `created_at`, for the C8 witness. -/
def bkW1 : Booking := ⟨1, "W1", "w1@example.com", "9300000000", "Sacred Darshan", 1,
  ⟨2026, 5, 10⟩, "PENDING", "KDR000100000003", 19500, 1, ""⟩

/-- Second witness row, created later than `bkW1`. -/
def bkW2 : Booking := ⟨2, "W2", "w2@example.com", "9400000000", "Sacred Darshan", 1,
  ⟨2026, 5, 11⟩, "PENDING", "KDR000100000004", 19500, 9, ""⟩

/-- Witness for the amended C8 on a store with distinct timestamps. -/
theorem get_bookings_sorted_witness :
    List.Pairwise (fun a b => b.created_at < a.created_at)
      (get_bookings [bkW1, bkW2]) :=
  (get_bookings_sorted [bkW1, bkW2]).2.2 (by decide)

end TravelBook
